import Mathlib

/-!
Verification of `prefect_kubernetes/credentials.py`: the credential-resolution
and client-acquisition logic of the `KubernetesCredentials` block.

The Python code is embedded shallowly:

* External calls (`KubernetesClusterConfig.configure_client`,
  `kube_config.load_incluster_config`, `kube_config.load_kube_config`) are
  modelled through an environment oracle `Env` that says, for each call,
  whether it succeeds or which exception it raises.
* Side effects are recorded in an event trace inside an explicit state `St`,
  which also carries the ambient (process-wide) connection state those calls
  establish, the credentials record and the module-level dispatch table.
* Python exceptions become an `Except Exc` result; `try/except` and
  `try/finally` become the corresponding case analyses, translated
  line by line from the source.
* `get_client` is a `contextmanager`; it is embedded as a function taking the
  caller usage block (`body`) as an argument, with the `try/finally` around
  the `yield` made explicit.
-/

deriving instance DecidableEq for Except

namespace PrefectK8s

/-- Python exception values relevant to the embedded code: the
`ConfigException` class caught by the fallback chain, `ValueError` with its
message, and arbitrary other exceptions (tagged by a number). -/
inductive Exc where
  | configException : Exc
  | valueError : String → Exc
  | other : Nat → Exc
deriving DecidableEq

/-- The three resource-specific client classes of the kubernetes library. -/
inductive PyClass where
  | appsV1Api : PyClass
  | batchV1Api : PyClass
  | coreV1Api : PyClass
deriving DecidableEq

/-- Ambient (process-wide) connection state, as established by the fallback
chain: unset, or set by one of the three mechanisms. -/
inductive Ambient where
  | unset : Ambient
  | fromClusterConfig : Ambient
  | fromIncluster : Ambient
  | fromKubeConfig : Ambient
deriving DecidableEq

/-- A `kubernetes.client.Configuration` value: either the fresh default
constructed by `Configuration()`, or a caller-supplied one (tagged). -/
inductive Config where
  | freshDefault : Config
  | supplied : Nat → Config
deriving DecidableEq

/-- Observable events of one acquisition: opening the generic transport
(`with ApiClient(configuration=...)`), the three resolution calls,
constructing a resource-specific client, clearing the connection pool
(`generic_client.rest_client.pool_manager.clear()`), and closing the
transport (`ApiClient.__exit__`). -/
inductive Event where
  | transportOpen : Config → Event
  | configureClient : Event
  | loadInclusterConfig : Event
  | loadKubeConfig : Event
  | clientConstructed : PyClass → Event
  | poolClear : Event
  | transportClose : Event
deriving DecidableEq

/-- A constructed resource-specific client: its class, and the ambient
connection state it captured at construction (a no-argument constructor
reads the default configuration). -/
structure K8sClient where
  cls : PyClass
  ambient : Ambient
deriving DecidableEq

/-- An opaque `KubernetesClusterConfig` block (external collaborator). -/
structure ClusterConfig where
  id : Nat
deriving DecidableEq

/-- The `KubernetesCredentials` block: `cluster_config: Optional[KubernetesClusterConfig] = None`. -/
structure KubernetesCredentials where
  cluster_config : Option ClusterConfig
deriving DecidableEq

/-- Environment oracle: the outcome of each external call in this run.
`none` means the call succeeds; `some e` means it raises `e`. -/
structure Env where
  configure_client : Option Exc
  load_incluster_config : Option Exc
  load_kube_config : Option Exc
deriving DecidableEq

/-- The module-level dispatch table `K8S_CLIENT_TYPES`, as an association
list keyed by the resource-type strings. -/
def K8S_CLIENT_TYPES : List (String × PyClass) :=
  [("apps", PyClass.appsV1Api), ("batch", PyClass.batchV1Api), ("core", PyClass.coreV1Api)]

/-- Mutable program state threaded through the embedded code: the event
trace, the ambient connection state, the credentials record (`self`) and the
module-level dispatch table. -/
structure St where
  trace : List Event
  ambient : Ambient
  creds : KubernetesCredentials
  clientTypes : List (String × PyClass)
deriving DecidableEq

/-- Append one event to the trace. -/
def emit (e : Event) (s : St) : St := { s with trace := s.trace ++ [e] }

/-- Modelled from the prefect library (not part of this repository):
`prefect.utilities.collections.listrepr` joins the `repr` of each element
with a separator, a single space by default; the Python `repr` of a plain
string wraps it in single quotes. -/
def listrepr (objs : List String) : String :=
  String.intercalate " " (objs.map (fun o => "'" ++ o ++ "'"))

/-- The `ValueError` message of lines 150-153:
`f"Invalid client type provided '{client_type}'. Must be one of {listrepr(K8S_CLIENT_TYPES.keys())}."`. -/
def invalidClientTypeMessage (tbl : List (String × PyClass)) (client_type : String) : String :=
  "Invalid client type provided '" ++ client_type ++ "'. Must be one of " ++
    listrepr (tbl.map Prod.fst) ++ "."

/-- Lines 139-145 of `get_resource_specific_client`: the configuration
fallback chain. `if self.cluster_config: self.cluster_config.configure_client()`
`else: try: kube_config.load_incluster_config() except ConfigException:`
`kube_config.load_kube_config()`. On success each mechanism establishes the
ambient connection state. -/
def resolveConfig (env : Env) (s : St) : Except Exc Unit × St :=
  match s.creds.cluster_config with
  | some _ =>
    let s1 := emit Event.configureClient s
    match env.configure_client with
    | some e => (Except.error e, s1)
    | none => (Except.ok (), { s1 with ambient := Ambient.fromClusterConfig })
  | none =>
    let s1 := emit Event.loadInclusterConfig s
    match env.load_incluster_config with
    | none => (Except.ok (), { s1 with ambient := Ambient.fromIncluster })
    | some e =>
      if e = Exc.configException then
        let s2 := emit Event.loadKubeConfig s1
        match env.load_kube_config with
        | none => (Except.ok (), { s2 with ambient := Ambient.fromKubeConfig })
        | some e2 => (Except.error e2, s2)
      else (Except.error e, s1)

/-- Lines 109-153: `get_resource_specific_client`. Runs the fallback chain
(lines 139-145), then `try: return K8S_CLIENT_TYPES[client_type]()`
`except KeyError: raise ValueError(...)`. The dictionary indexing that can
raise `KeyError` is the `none` case of the association-list lookup; the
no-argument constructor captures the ambient state. -/
def get_resource_specific_client (env : Env) (client_type : String) (s : St) :
    Except Exc K8sClient × St :=
  match resolveConfig env s with
  | (Except.error e, s1) => (Except.error e, s1)
  | (Except.ok _, s1) =>
    match s1.clientTypes.lookup client_type with
    | some cls =>
      let s2 := emit (Event.clientConstructed cls) s1
      (Except.ok { cls := cls, ambient := s2.ambient }, s2)
    | none =>
      (Except.error (Exc.valueError (invalidClientTypeMessage s1.clientTypes client_type)), s1)

/-- Line 101: `client_config = configuration or Configuration()`. -/
def configOr (configuration : Option Config) : Config :=
  match configuration with
  | some c => c
  | none => Config.freshDefault

/-- Lines 78-107: the `get_client` context manager.
`client_config = configuration or Configuration()`; then
`with ApiClient(configuration=client_config) as generic_client:` opens the
generic transport; inside it, `try: yield self.get_resource_specific_client(client_type)`
`finally: generic_client.rest_client.pool_manager.clear()`. The caller usage
block is `body`; an exception raised by `get_resource_specific_client` (at
`__enter__` time) or by the body goes through the `finally` clause and then
through `ApiClient.__exit__` (transport close) before propagating. -/
def get_client (env : Env) (client_type : String) (configuration : Option Config)
    (body : K8sClient → Except Exc Unit) (s : St) : Except Exc Unit × St :=
  let client_config := configOr configuration
  let s1 := emit (Event.transportOpen client_config) s
  let step :=
    match get_resource_specific_client env client_type s1 with
    | (Except.error e, sE) => (Except.error e, sE)
    | (Except.ok client, sY) => (body client, sY)
  let s3 := emit Event.poolClear step.2
  let s4 := emit Event.transportClose s3
  (step.1, s4)

/-- Initial state: empty trace, ambient state unset, a credentials record
with the given `cluster_config`, and the module dispatch table. -/
def mkSt (cluster_config : Option ClusterConfig) : St :=
  { trace := [], ambient := Ambient.unset,
    creds := { cluster_config := cluster_config },
    clientTypes := K8S_CLIENT_TYPES }

/-- Environment in which every external call succeeds. -/
def envAllOk : Env :=
  { configure_client := none, load_incluster_config := none, load_kube_config := none }

/-- Environment in which the explicit cluster configuration fails to apply. -/
def envClusterErr : Env :=
  { configure_client := some (Exc.other 3), load_incluster_config := none,
    load_kube_config := none }

/-- Environment in which the in-cluster load raises a condition other than
`ConfigException`. -/
def envInclusterErr : Env :=
  { configure_client := none, load_incluster_config := some (Exc.other 5),
    load_kube_config := none }

/-- Environment outside a cluster (in-cluster load raises `ConfigException`)
with a valid local kubeconfig. -/
def envOutOfCluster : Env :=
  { configure_client := none, load_incluster_config := some Exc.configException,
    load_kube_config := none }

/-- `sub` occurs as a contiguous substring of `m`. -/
def strContains (m sub : String) : Prop := ∃ p q : String, m = p ++ (sub ++ q)

/-- The outcome of the fallback chain as a pure function of the environment
and the credentials record. -/
def resolveOutcome (env : Env) (creds : KubernetesCredentials) : Except Exc Unit :=
  match creds.cluster_config with
  | some _ =>
    match env.configure_client with
    | some e => Except.error e
    | none => Except.ok ()
  | none =>
    match env.load_incluster_config with
    | none => Except.ok ()
    | some e =>
      if e = Exc.configException then
        match env.load_kube_config with
        | none => Except.ok ()
        | some e2 => Except.error e2
      else Except.error e

/-- The events emitted by the fallback chain. -/
def resolveEvents (env : Env) (creds : KubernetesCredentials) : List Event :=
  match creds.cluster_config with
  | some _ => [Event.configureClient]
  | none =>
    match env.load_incluster_config with
    | none => [Event.loadInclusterConfig]
    | some e =>
      if e = Exc.configException then [Event.loadInclusterConfig, Event.loadKubeConfig]
      else [Event.loadInclusterConfig]

/-- The ambient connection state after the fallback chain, given the state
it started from. -/
def resolveAmbient (env : Env) (creds : KubernetesCredentials) (a : Ambient) : Ambient :=
  match creds.cluster_config with
  | some _ =>
    match env.configure_client with
    | some _ => a
    | none => Ambient.fromClusterConfig
  | none =>
    match env.load_incluster_config with
    | none => Ambient.fromIncluster
    | some e =>
      if e = Exc.configException then
        match env.load_kube_config with
        | none => Ambient.fromKubeConfig
        | some _ => a
      else a

/-- Characterization of `resolveConfig`: its outcome, emitted events and
ambient effect are the pure functions above; the credentials record and the
dispatch table are untouched. -/
theorem resolveConfig_eq (env : Env) (s : St) :
    resolveConfig env s =
      (resolveOutcome env s.creds,
       { trace := s.trace ++ resolveEvents env s.creds,
         ambient := resolveAmbient env s.creds s.ambient,
         creds := s.creds, clientTypes := s.clientTypes }) := by
  rcases s with ⟨t, a, ⟨cc⟩, tbl⟩
  rcases env with ⟨ec, ei, ek⟩
  cases cc <;> cases ec <;> cases ei <;> cases ek <;>
    simp only [resolveConfig, resolveOutcome, resolveEvents, resolveAmbient, emit]
  all_goals (split_ifs <;> simp_all)

example :
    (get_client envAllOk "apps" none (fun _ => Except.ok ()) (mkSt none)).2.trace =
      [Event.transportOpen Config.freshDefault, Event.loadInclusterConfig,
       Event.clientConstructed PyClass.appsV1Api, Event.poolClear, Event.transportClose] := by
  decide

example :
    (get_client envAllOk "widgets" none (fun _ => Except.ok ()) (mkSt none)).1 =
      Except.error (Exc.valueError
        "Invalid client type provided 'widgets'. Must be one of 'apps' 'batch' 'core'.") := by
  decide

theorem resolveEvents_count_poolClear (env : Env) (creds : KubernetesCredentials) :
    (resolveEvents env creds).count Event.poolClear = 0 := by
  rcases creds with ⟨cc⟩
  rcases env with ⟨ec, ei, ek⟩
  cases cc <;> cases ei <;> simp only [resolveEvents] <;>
    first | decide | (split_ifs <;> decide)

theorem grsc_trace (env : Env) (ct : String) (s : St) :
    ∃ mid : List Event,
      (get_resource_specific_client env ct s).2.trace
          = s.trace ++ resolveEvents env s.creds ++ mid
      ∧ ∀ e ∈ mid, ∃ cls : PyClass, e = Event.clientConstructed cls := by
  unfold get_resource_specific_client
  rw [resolveConfig_eq]
  cases ho : resolveOutcome env s.creds with
  | error e => exact ⟨[], by simp, by simp⟩
  | ok u =>
    cases hl : List.lookup ct s.clientTypes with
    | none => exact ⟨[], by simp [hl], by simp⟩
    | some cls =>
      exact ⟨[Event.clientConstructed cls], by simp [hl, emit], by simp⟩

theorem grsc_fst_ok (env : Env) (ct : String) (s : St) (cls : PyClass)
    (hr : resolveOutcome env s.creds = Except.ok ())
    (hl : List.lookup ct s.clientTypes = some cls) :
    (get_resource_specific_client env ct s).1
        = Except.ok ⟨cls, resolveAmbient env s.creds s.ambient⟩ := by
  unfold get_resource_specific_client
  rw [resolveConfig_eq, hr]
  simp [hl, emit]

theorem grsc_fst_invalid (env : Env) (ct : String) (s : St)
    (hr : resolveOutcome env s.creds = Except.ok ())
    (hl : List.lookup ct s.clientTypes = none) :
    (get_resource_specific_client env ct s).1
        = Except.error (Exc.valueError (invalidClientTypeMessage s.clientTypes ct)) := by
  unfold get_resource_specific_client
  rw [resolveConfig_eq, hr]
  simp [hl]

theorem grsc_fst_err (env : Env) (ct : String) (s : St) (e : Exc)
    (hr : resolveOutcome env s.creds = Except.error e) :
    (get_resource_specific_client env ct s).1 = Except.error e := by
  unfold get_resource_specific_client
  rw [resolveConfig_eq, hr]

theorem grsc_frame (env : Env) (ct : String) (s : St) :
    (get_resource_specific_client env ct s).2.creds = s.creds
    ∧ (get_resource_specific_client env ct s).2.clientTypes = s.clientTypes := by
  unfold get_resource_specific_client
  rw [resolveConfig_eq]
  cases ho : resolveOutcome env s.creds with
  | error e => simp
  | ok u =>
    cases hl : List.lookup ct s.clientTypes with
    | none => simp [hl]
    | some cls => simp [hl, emit]

theorem grsc_fst_trace_irrel (env : Env) (ct : String) (s : St) (t : List Event) :
    (get_resource_specific_client env ct { s with trace := t }).1
        = (get_resource_specific_client env ct s).1 := by
  unfold get_resource_specific_client
  rw [resolveConfig_eq, resolveConfig_eq]
  cases ho : resolveOutcome env s.creds with
  | error e => simp
  | ok u =>
    cases hl : List.lookup ct s.clientTypes with
    | none => simp [hl]
    | some cls => simp [hl, emit]

theorem get_client_fst (env : Env) (ct : String) (cfg : Option Config)
    (body : K8sClient → Except Exc Unit) (s : St) :
    (get_client env ct cfg body s).1 =
      match (get_resource_specific_client env ct
          (emit (Event.transportOpen (configOr cfg)) s)).1 with
      | Except.error e => Except.error e
      | Except.ok client => body client := by
  unfold get_client
  rcases hg : get_resource_specific_client env ct
      (emit (Event.transportOpen (configOr cfg)) s) with ⟨r, s2⟩
  cases r <;> simp [hg]

theorem get_client_trace (env : Env) (ct : String) (cfg : Option Config)
    (body : K8sClient → Except Exc Unit) (s : St) :
    (get_client env ct cfg body s).2.trace
      = (get_resource_specific_client env ct
          (emit (Event.transportOpen (configOr cfg)) s)).2.trace
        ++ [Event.poolClear, Event.transportClose] := by
  simp only [get_client]
  rcases hg : get_resource_specific_client env ct
      (emit (Event.transportOpen (configOr cfg)) s) with ⟨r, s2⟩
  cases r <;> simp [emit, List.append_assoc]

theorem strContains_append_left (a m sub : String) (h : strContains m sub) :
    strContains (a ++ m) sub := by
  obtain ⟨p, q, rfl⟩ := h
  exact ⟨a ++ p, q, by rw [String.append_assoc]⟩

theorem lookup_none_of_ne (ct : String)
    (h1 : ct ≠ "apps") (h2 : ct ≠ "batch") (h3 : ct ≠ "core") :
    List.lookup ct K8S_CLIENT_TYPES = none := by
  have b1 : (ct == "apps") = false := by simpa using h1
  have b2 : (ct == "batch") = false := by simpa using h2
  have b3 : (ct == "core") = false := by simpa using h3
  simp [K8S_CLIENT_TYPES, List.lookup, b1, b2, b3]

/-- C1 counterexample: calling `get_client` with the invalid resource type
"widgets" (no stored cluster config, everything else succeeding) does open
the generic transport, does perform the in-cluster resolution side effect,
and does release the pool once — contradicting the claim that no transport
is acquired, no connection side effects occur and no pool release happens
for an invalid resource-type string. -/
theorem C1_counterexample :
    Event.transportOpen Config.freshDefault
        ∈ (get_client envAllOk "widgets" none (fun _ => Except.ok ()) (mkSt none)).2.trace
    ∧ (get_client envAllOk "widgets" none (fun _ => Except.ok ()) (mkSt none)).2.trace.count
        Event.poolClear = 1
    ∧ (get_client envAllOk "widgets" none (fun _ => Except.ok ()) (mkSt none)).2.trace.count
        Event.loadInclusterConfig = 1 := by
  decide

/-- C1 (amended): for every invalid resource-type string whose configuration
resolution succeeds, `get_client` fails with the `ValueError` naming the
offending value — but only after the generic transport has been opened and
the resolution side effects have occurred, and the transport pool is
released exactly once before the error propagates. -/
theorem C1_amended_invalid_type_fails_inside_transport (env : Env) (ct : String)
    (cfg : Option Config) (body : K8sClient → Except Exc Unit) (s : St)
    (hv : List.lookup ct s.clientTypes = none)
    (hr : resolveOutcome env s.creds = Except.ok ()) :
    (get_client env ct cfg body s).1
        = Except.error (Exc.valueError (invalidClientTypeMessage s.clientTypes ct))
    ∧ Event.transportOpen (configOr cfg) ∈ (get_client env ct cfg body s).2.trace
    ∧ (get_client env ct cfg body s).2.trace.count Event.poolClear
        = s.trace.count Event.poolClear + 1 := by
  have hfst : (get_resource_specific_client env ct
      (emit (Event.transportOpen (configOr cfg)) s)).1
        = Except.error (Exc.valueError (invalidClientTypeMessage s.clientTypes ct)) :=
    grsc_fst_invalid env ct (emit (Event.transportOpen (configOr cfg)) s) hr hv
  obtain ⟨mid, hmid, hall⟩ :=
    grsc_trace env ct (emit (Event.transportOpen (configOr cfg)) s)
  have hmid0 : mid.count Event.poolClear = 0 := by
    rw [List.count_eq_zero]
    intro hmem
    obtain ⟨cls, hcls⟩ := hall _ hmem
    cases hcls
  refine ⟨?_, ?_, ?_⟩
  · rw [get_client_fst, hfst]
  · rw [get_client_trace, hmid]
    simp [emit]
  · rw [get_client_trace, hmid]
    simp [emit, List.count_append, resolveEvents_count_poolClear, hmid0]

/-- C1 witness: the amended theorem applied at the concrete invalid type
"widgets" with no stored cluster config and all external calls succeeding. -/
theorem C1_witness :
    (get_client envAllOk "widgets" none (fun _ => Except.ok ()) (mkSt none)).1
        = Except.error (Exc.valueError
            (invalidClientTypeMessage K8S_CLIENT_TYPES "widgets"))
    ∧ Event.transportOpen (configOr none)
        ∈ (get_client envAllOk "widgets" none (fun _ => Except.ok ()) (mkSt none)).2.trace
    ∧ (get_client envAllOk "widgets" none (fun _ => Except.ok ()) (mkSt none)).2.trace.count
        Event.poolClear = (mkSt none).trace.count Event.poolClear + 1 :=
  C1_amended_invalid_type_fails_inside_transport envAllOk "widgets" none
    (fun _ => Except.ok ()) (mkSt none) (by decide) (by decide)

/-- C2: on every exit path of the caller's usage block the pool is released
exactly once per acquisition (the trace gains exactly one `poolClear`
event), and whenever the client was yielded, the result of `get_client` is
exactly the outcome of the usage block — a raised exception is re-raised
unmodified after cleanup, a normal completion returns normally. -/
theorem C2_pool_released_exactly_once (env : Env) (ct : String) (cfg : Option Config)
    (body : K8sClient → Except Exc Unit) (s : St) :
    (get_client env ct cfg body s).2.trace.count Event.poolClear
        = s.trace.count Event.poolClear + 1
    ∧ (∀ c : K8sClient,
        (get_resource_specific_client env ct
            (emit (Event.transportOpen (configOr cfg)) s)).1 = Except.ok c →
        (get_client env ct cfg body s).1 = body c) := by
  constructor
  · obtain ⟨mid, hmid, hall⟩ :=
      grsc_trace env ct (emit (Event.transportOpen (configOr cfg)) s)
    have hmid0 : mid.count Event.poolClear = 0 := by
      rw [List.count_eq_zero]
      intro hmem
      obtain ⟨cls, hcls⟩ := hall _ hmem
      cases hcls
    rw [get_client_trace, hmid]
    simp [emit, List.count_append, resolveEvents_count_poolClear, hmid0]
  · intro c hc
    rw [get_client_fst, hc]

/-- C2 witness: a usage block that raises; the pool is released once and the
raised exception comes back unmodified. -/
theorem C2_witness :
    (get_client envAllOk "apps" none (fun _ => Except.error (Exc.other 7))
        (mkSt none)).2.trace.count Event.poolClear
      = (mkSt none).trace.count Event.poolClear + 1
    ∧ (get_client envAllOk "apps" none (fun _ => Except.error (Exc.other 7))
        (mkSt none)).1 = Except.error (Exc.other 7) :=
  ⟨(C2_pool_released_exactly_once envAllOk "apps" none
      (fun _ => Except.error (Exc.other 7)) (mkSt none)).1,
   (C2_pool_released_exactly_once envAllOk "apps" none
      (fun _ => Except.error (Exc.other 7)) (mkSt none)).2
     ⟨PyClass.appsV1Api, Ambient.fromIncluster⟩ (by decide)⟩

/-- C3: when the credential record holds a `cluster_config`, resolution
invokes only its configure capability — the trace gains exactly the
`configureClient` event, so neither in-cluster nor local-kubeconfig loading
is attempted — and a failure of the explicit configuration propagates
directly, while success resolves. -/
theorem C3_explicit_config_authoritative (env : Env) (s : St) (cc : ClusterConfig)
    (h : s.creds.cluster_config = some cc) :
    (resolveConfig env s).2.trace = s.trace ++ [Event.configureClient]
    ∧ (Event.loadInclusterConfig ∈ (resolveConfig env s).2.trace →
        Event.loadInclusterConfig ∈ s.trace)
    ∧ (Event.loadKubeConfig ∈ (resolveConfig env s).2.trace →
        Event.loadKubeConfig ∈ s.trace)
    ∧ (∀ e : Exc, env.configure_client = some e →
        (resolveConfig env s).1 = Except.error e)
    ∧ (env.configure_client = none → (resolveConfig env s).1 = Except.ok ()) := by
  rw [resolveConfig_eq]
  refine ⟨?_, ?_, ?_, ?_, ?_⟩
  · simp [resolveEvents, h]
  · simp [resolveEvents, h]
  · simp [resolveEvents, h]
  · intro e he
    simp [resolveOutcome, h, he]
  · intro he
    simp [resolveOutcome, h, he]

/-- C3 witness: an explicit cluster config whose configure call fails; only
the configure event appears, and the failure propagates as is. -/
theorem C3_witness :
    (resolveConfig envClusterErr (mkSt (some ⟨0⟩))).2.trace = [Event.configureClient]
    ∧ (resolveConfig envClusterErr (mkSt (some ⟨0⟩))).1 = Except.error (Exc.other 3) := by
  have h := C3_explicit_config_authoritative envClusterErr (mkSt (some ⟨0⟩)) ⟨0⟩ rfl
  exact ⟨h.1, h.2.2.2.1 (Exc.other 3) rfl⟩

/-- C4: with no stored cluster config, in-cluster resolution is attempted
first; exactly when it fails with `ConfigException` does resolution fall
through to the local kubeconfig load (exactly once), whose failure is fatal
and surfaces unchanged; any other in-cluster failure propagates without
fallback. -/
theorem C4_incluster_then_kubeconfig (env : Env) (s : St)
    (h : s.creds.cluster_config = none) :
    (∃ rest : List Event,
        (resolveConfig env s).2.trace = s.trace ++ Event.loadInclusterConfig :: rest)
    ∧ (env.load_incluster_config = some Exc.configException →
        (resolveConfig env s).2.trace
            = s.trace ++ [Event.loadInclusterConfig, Event.loadKubeConfig]
        ∧ (env.load_kube_config = none → (resolveConfig env s).1 = Except.ok ())
        ∧ (∀ e2 : Exc, env.load_kube_config = some e2 →
            (resolveConfig env s).1 = Except.error e2))
    ∧ (∀ e : Exc, env.load_incluster_config = some e → e ≠ Exc.configException →
        (resolveConfig env s).1 = Except.error e
        ∧ (resolveConfig env s).2.trace = s.trace ++ [Event.loadInclusterConfig])
    ∧ (env.load_incluster_config = none →
        (resolveConfig env s).1 = Except.ok ()
        ∧ (resolveConfig env s).2.trace = s.trace ++ [Event.loadInclusterConfig]) := by
  rw [resolveConfig_eq]
  refine ⟨?_, ?_, ?_, ?_⟩
  · rcases hi : env.load_incluster_config with _ | e
    · exact ⟨[], by simp [resolveEvents, h, hi]⟩
    · by_cases he : e = Exc.configException
      · exact ⟨[Event.loadKubeConfig], by simp [resolveEvents, h, hi, he]⟩
      · exact ⟨[], by simp [resolveEvents, h, hi, he]⟩
  · intro hi
    refine ⟨by simp [resolveEvents, h, hi], ?_, ?_⟩
    · intro hk
      simp [resolveOutcome, h, hi, hk]
    · intro e2 hk
      simp [resolveOutcome, h, hi, hk]
  · intro e hi he
    exact ⟨by simp [resolveOutcome, h, hi, he], by simp [resolveEvents, h, hi, he]⟩
  · intro hi
    exact ⟨by simp [resolveOutcome, h, hi], by simp [resolveEvents, h, hi]⟩

/-- C4 witness: outside a cluster (in-cluster load raises `ConfigException`)
with a working local kubeconfig, the chain falls through exactly once and
succeeds. -/
theorem C4_witness :
    (resolveConfig envOutOfCluster (mkSt none)).2.trace
        = [Event.loadInclusterConfig, Event.loadKubeConfig]
    ∧ (resolveConfig envOutOfCluster (mkSt none)).1 = Except.ok () := by
  have h := (C4_incluster_then_kubeconfig envOutOfCluster (mkSt none) rfl).2.1 rfl
  exact ⟨h.1, h.2.1 rfl⟩

/-- C5: with the standard dispatch table and a successful configuration
resolution, "apps" yields the `AppsV1Api` client, "batch" yields
`BatchV1Api`, "core" yields `CoreV1Api`, and every other string is rejected
with the `ValueError`. -/
theorem C5_selector_dispatch (env : Env) (s : St)
    (htbl : s.clientTypes = K8S_CLIENT_TYPES)
    (hr : resolveOutcome env s.creds = Except.ok ()) :
    (get_resource_specific_client env "apps" s).1.map K8sClient.cls
        = Except.ok PyClass.appsV1Api
    ∧ (get_resource_specific_client env "batch" s).1.map K8sClient.cls
        = Except.ok PyClass.batchV1Api
    ∧ (get_resource_specific_client env "core" s).1.map K8sClient.cls
        = Except.ok PyClass.coreV1Api
    ∧ (∀ ct : String, ct ≠ "apps" → ct ≠ "batch" → ct ≠ "core" →
        (get_resource_specific_client env ct s).1
            = Except.error (Exc.valueError
                (invalidClientTypeMessage K8S_CLIENT_TYPES ct))) := by
  refine ⟨?_, ?_, ?_, ?_⟩
  · rw [grsc_fst_ok env "apps" s PyClass.appsV1Api hr (by rw [htbl]; decide)]
    rfl
  · rw [grsc_fst_ok env "batch" s PyClass.batchV1Api hr (by rw [htbl]; decide)]
    rfl
  · rw [grsc_fst_ok env "core" s PyClass.coreV1Api hr (by rw [htbl]; decide)]
    rfl
  · intro ct h1 h2 h3
    have hl : List.lookup ct s.clientTypes = none := by
      rw [htbl]
      exact lookup_none_of_ne ct h1 h2 h3
    rw [grsc_fst_invalid env ct s hr hl, htbl]

/-- C5 witness: the dispatch theorem applied at a concrete state, including
the rejection of the invalid selector "widgets". -/
theorem C5_witness :
    (get_resource_specific_client envAllOk "apps" (mkSt none)).1.map K8sClient.cls
        = Except.ok PyClass.appsV1Api
    ∧ (get_resource_specific_client envAllOk "widgets" (mkSt none)).1
        = Except.error (Exc.valueError
            (invalidClientTypeMessage K8S_CLIENT_TYPES "widgets")) :=
  ⟨(C5_selector_dispatch envAllOk (mkSt none) rfl rfl).1,
   (C5_selector_dispatch envAllOk (mkSt none) rfl rfl).2.2.2 "widgets"
     (by decide) (by decide) (by decide)⟩

/-- C6: for every invalid resource-type string (resolution succeeding, the
standard table in place), the `ValueError` message contains both the
offending value and each member of the valid set, in its quoted
enumeration. -/
theorem C6_error_message_contents (env : Env) (s : St) (ct : String)
    (htbl : s.clientTypes = K8S_CLIENT_TYPES)
    (hr : resolveOutcome env s.creds = Except.ok ())
    (h1 : ct ≠ "apps") (h2 : ct ≠ "batch") (h3 : ct ≠ "core") :
    ∃ m : String,
      (get_resource_specific_client env ct s).1 = Except.error (Exc.valueError m)
      ∧ strContains m ct
      ∧ strContains m "'apps'" ∧ strContains m "'batch'" ∧ strContains m "'core'" := by
  have hl : List.lookup ct s.clientTypes = none := by
    rw [htbl]
    exact lookup_none_of_ne ct h1 h2 h3
  have hmsg : invalidClientTypeMessage K8S_CLIENT_TYPES ct
      = "Invalid client type provided '"
        ++ (ct ++ "'. Must be one of 'apps' 'batch' 'core'.") := by
    have hL : listrepr (K8S_CLIENT_TYPES.map Prod.fst) = "'apps' 'batch' 'core'" := by
      decide
    have hT : "'. Must be one of " ++ ("'apps' 'batch' 'core'" ++ ".")
        = "'. Must be one of 'apps' 'batch' 'core'." := by decide
    unfold invalidClientTypeMessage
    rw [hL, String.append_assoc, String.append_assoc, String.append_assoc, hT]
  refine ⟨invalidClientTypeMessage K8S_CLIENT_TYPES ct, ?_, ?_, ?_, ?_, ?_⟩
  · rw [grsc_fst_invalid env ct s hr hl, htbl]
  · exact ⟨"Invalid client type provided '",
      "'. Must be one of 'apps' 'batch' 'core'.", hmsg⟩
  · rw [hmsg]
    refine strContains_append_left _ _ _ (strContains_append_left _ _ _ ?_)
    exact ⟨"'. Must be one of ", " 'batch' 'core'.", by decide⟩
  · rw [hmsg]
    refine strContains_append_left _ _ _ (strContains_append_left _ _ _ ?_)
    exact ⟨"'. Must be one of 'apps' ", " 'core'.", by decide⟩
  · rw [hmsg]
    refine strContains_append_left _ _ _ (strContains_append_left _ _ _ ?_)
    exact ⟨"'. Must be one of 'apps' 'batch' ", ".", by decide⟩

/-- C6 witness: the message theorem applied at the concrete invalid selector
"widgets". -/
theorem C6_witness :
    ∃ m : String,
      (get_resource_specific_client envAllOk "widgets" (mkSt none)).1
          = Except.error (Exc.valueError m)
      ∧ strContains m "widgets"
      ∧ strContains m "'apps'" ∧ strContains m "'batch'" ∧ strContains m "'core'" :=
  C6_error_message_contents envAllOk (mkSt none) "widgets" rfl rfl
    (by decide) (by decide) (by decide)

/-- C7 counterexample: with a stored cluster config and no caller-supplied
configuration, the trace of a successful acquisition shows the transport
being opened bound to the untouched fresh default configuration BEFORE the
resolver chain runs; the chain's effect lands in the ambient connection
state (`fromClusterConfig`), never in the configuration the transport was
bound to — refuting the claim that the fresh default bound to the transport
is populated by the resolver chain. -/
theorem C7_counterexample :
    (get_client envAllOk "core" none (fun _ => Except.ok ()) (mkSt (some ⟨0⟩))).2.trace
        = [Event.transportOpen Config.freshDefault, Event.configureClient,
           Event.clientConstructed PyClass.coreV1Api, Event.poolClear,
           Event.transportClose]
    ∧ (get_client envAllOk "core" none (fun _ => Except.ok ()) (mkSt (some ⟨0⟩))).2.ambient
        = Ambient.fromClusterConfig := by
  decide

/-- C7 (amended): the configuration bound to the generic transport is the
caller-supplied one when given and otherwise the fresh default; the
resolver chain (taking the stored cluster config as its explicit input)
runs only after the transport is opened, establishing ambient state rather
than populating the bound configuration. -/
theorem C7_amended_transport_binding (env : Env) (ct : String) (cfg : Option Config)
    (body : K8sClient → Except Exc Unit) (s : St) :
    (∀ c : Config, configOr (some c) = c)
    ∧ configOr none = Config.freshDefault
    ∧ ∃ rest : List Event,
        (get_client env ct cfg body s).2.trace
          = s.trace ++ Event.transportOpen (configOr cfg)
              :: (resolveEvents env s.creds ++ rest) := by
  refine ⟨fun _ => rfl, rfl, ?_⟩
  obtain ⟨mid, hmid, _⟩ :=
    grsc_trace env ct (emit (Event.transportOpen (configOr cfg)) s)
  refine ⟨mid ++ [Event.poolClear, Event.transportClose], ?_⟩
  rw [get_client_trace, hmid]
  simp [emit, List.append_assoc]

/-- C8: in `get_resource_specific_client` the fallback chain runs before the
`client_type` value is validated: for an invalid `client_type` the state
after the call is exactly the state left by the chain (its side effects
occur regardless), and when the chain raises, that error propagates and the
`ValueError` is never produced for that call. -/
theorem C8_resolution_precedes_validation (env : Env) (ct : String) (s : St)
    (hv : List.lookup ct s.clientTypes = none) :
    (get_resource_specific_client env ct s).2 = (resolveConfig env s).2
    ∧ (∀ e : Exc, resolveOutcome env s.creds = Except.error e →
        (get_resource_specific_client env ct s).1 = Except.error e) := by
  constructor
  · unfold get_resource_specific_client
    rw [resolveConfig_eq]
    cases ho : resolveOutcome env s.creds with
    | error e => rfl
    | ok u => simp [hv]
  · intro e he
    exact grsc_fst_err env ct s e he

/-- C8 witness: invalid selector "widgets" with an in-cluster failure other
than `ConfigException`; the resolution error comes back, not the
`ValueError`, and the chain's side effects are in the state. -/
theorem C8_witness :
    (get_resource_specific_client envInclusterErr "widgets" (mkSt none)).2
        = (resolveConfig envInclusterErr (mkSt none)).2
    ∧ (get_resource_specific_client envInclusterErr "widgets" (mkSt none)).1
        = Except.error (Exc.other 5) :=
  ⟨(C8_resolution_precedes_validation envInclusterErr "widgets" (mkSt none)
      (by decide)).1,
   (C8_resolution_precedes_validation envInclusterErr "widgets" (mkSt none)
      (by decide)).2 (Exc.other 5) (by decide)⟩

/-- C9: the resource-specific client is constructed with no arguments, so it
is independent of the caller-supplied configuration: two runs differing only
in the configuration argument construct the same client and produce the
same result; the configuration only determines which transport is opened
and cleared. -/
theorem C9_client_independent_of_configuration (env : Env) (ct : String)
    (cfg1 cfg2 : Option Config) (body : K8sClient → Except Exc Unit) (s : St) :
    (get_resource_specific_client env ct
        (emit (Event.transportOpen (configOr cfg1)) s)).1
      = (get_resource_specific_client env ct
          (emit (Event.transportOpen (configOr cfg2)) s)).1
    ∧ (get_client env ct cfg1 body s).1 = (get_client env ct cfg2 body s).1 := by
  have h1 : (get_resource_specific_client env ct
      (emit (Event.transportOpen (configOr cfg1)) s)).1
        = (get_resource_specific_client env ct s).1 := by
    simp only [emit]
    exact grsc_fst_trace_irrel env ct s _
  have h2 : (get_resource_specific_client env ct
      (emit (Event.transportOpen (configOr cfg2)) s)).1
        = (get_resource_specific_client env ct s).1 := by
    simp only [emit]
    exact grsc_fst_trace_irrel env ct s _
  refine ⟨h1.trans h2.symm, ?_⟩
  rw [get_client_fst, get_client_fst, h1, h2]

/-- C10: neither acquisition entry point mutates the credential record or
the client-type dispatch table, on any path: the `creds` and `clientTypes`
components of the state are unchanged by `get_client` and by
`get_resource_specific_client`. -/
theorem C10_credentials_never_mutated (env : Env) (ct : String) (cfg : Option Config)
    (body : K8sClient → Except Exc Unit) (s : St) :
    (get_client env ct cfg body s).2.creds = s.creds
    ∧ (get_client env ct cfg body s).2.clientTypes = s.clientTypes
    ∧ (get_resource_specific_client env ct s).2.creds = s.creds
    ∧ (get_resource_specific_client env ct s).2.clientTypes = s.clientTypes := by
  have hg := grsc_frame env ct (emit (Event.transportOpen (configOr cfg)) s)
  have hs := grsc_frame env ct s
  refine ⟨?_, ?_, hs.1, hs.2⟩
  · simp only [get_client]
    rcases hgr : get_resource_specific_client env ct
        (emit (Event.transportOpen (configOr cfg)) s) with ⟨r, s2⟩
    rw [hgr] at hg
    cases r <;> simpa [emit] using hg.1
  · simp only [get_client]
    rcases hgr : get_resource_specific_client env ct
        (emit (Event.transportOpen (configOr cfg)) s) with ⟨r, s2⟩
    rw [hgr] at hg
    cases r <;> simpa [emit] using hg.2

end PrefectK8s
